import Mathlib

/-!
# Verification of `monitorWebsite` (src/src/lib/monitor/monitor.ts)

Shallow embedding of the monitoring core of the `monitor-api` repository.

The program under study is a single async function `monitorWebsite` that
runs six network probes (HTTP reachability, DNS, TLS certificate, RDAP
domain expiry, port reachability, HTTP-based ping) against one target and
assembles a report object.  All network effects (fetch results, DNS
lookups, TLS handshakes, the RDAP response, clock readings, the
public-suffix library, platform date parsing) are captured in an
environment record `Env`: `monitorWebsite` becomes a pure function of the
input string and the environment, mirroring the source line by line.

Numeric conventions: JavaScript timestamps (`Date.now()`,
`Date.getTime()`) are modelled as `Int` milliseconds; elapsed
`performance.now()` differences as `Nat` milliseconds (`performance.now`
is monotone, so elapsed times are non-negative).  `Math.round` of a
millisecond difference divided by a positive constant is modelled exactly
as `⌊x + 1/2⌋` over the integers.
-/

namespace MonitorApi

/-- A settled HTTP response as seen by the code: the `ok` flag and the
numeric status code (`res.ok`, `res.status`). -/
structure HttpResp where
  ok : Bool
  status : Nat
deriving Repr, DecidableEq

/-- Environment for one call of `safeHeadOrGet`: the outcome of the HEAD
request and the outcome of the fallback GET request (each either a settled
response or a rejection message, which also covers the abort produced by
the timeout). -/
structure FetchEnv where
  head : Except String HttpResp
  get : Except String HttpResp
deriving Repr

/-- Embedding of `safeHeadOrGet` (monitor.ts lines 19-30): try HEAD; if it
rejects, the whole call rejects; if it settles but `!res.ok || res.status
=== 405`, retry once with GET and return that outcome (success or
rejection); otherwise return the HEAD response.  The timeout parameter
does not influence the settled outcome (the abort it may cause is a
rejection already recorded in the environment); it is kept for fidelity of
the call sites and used by the duration model below. -/
def safeHeadOrGet (f : FetchEnv) (_timeoutMs : Nat) : Except String HttpResp :=
  match f.head with
  | .error e => .error e
  | .ok res => if !res.ok || res.status == 405 then f.get else .ok res

/-- The explicit timeout of the website fetch (monitor.ts line 68). -/
def websiteTimeoutMs : Nat := 8000

/-- The explicit timeout of the TLS handshake (monitor.ts line 109). -/
def tlsTimeoutMs : Nat := 6000

/-- The explicit timeout of each port check (monitor.ts line 166). -/
def portTimeoutMs : Nat := 5000

/-- The explicit timeout of the ping fetch (monitor.ts line 182). -/
def pingTimeoutMs : Nat := 6000

/-- Model of `Math.round((a : ms) / 86400000)` on integer `a`, i.e. `⌊a/86400000 +
1/2⌋`, matching JavaScript rounding of half-up (also for negative
arguments: `Math.round(-0.5) = 0`). -/
def jsRoundDays (diffMs : Int) : Int :=
  Int.fdiv (2 * diffMs + 86400000) (2 * 86400000)

/-! ## String primitives

The JavaScript string operations the code relies on (`trim`,
case-insensitive matching, `split('.')`, `join('.')`) are modelled by
structural recursion over character lists, so that every definition
evaluates inside the kernel. -/

/-- ASCII/Unicode lowercasing of a character list (JS `toLowerCase` on the
hostnames and action labels at hand). -/
def lowerChars (l : List Char) : List Char := l.map Char.toLower

/-- Model of `s.toLowerCase()`. -/
def lowerString (s : String) : String := String.mk (lowerChars s.toList)

/-- Model of `s.trim()`: strip leading and trailing whitespace. -/
def trimString (s : String) : String :=
  String.mk ((((s.toList.dropWhile Char.isWhitespace).reverse).dropWhile
    Char.isWhitespace).reverse)

/-- Whether the second list starts with the first. -/
def leadsWith : List Char → List Char → Bool
  | [], _ => true
  | _ :: _, [] => false
  | p :: ps, c :: cs => p == c && leadsWith ps cs

/-- Whether `pat` occurs as a contiguous substring. -/
def containsChars (pat : List Char) : List Char → Bool
  | [] => leadsWith pat []
  | c :: rest => leadsWith pat (c :: rest) || containsChars pat rest

/-- Model of `hostname.split('.')`, over character lists. -/
def splitOnDot : List Char → List (List Char)
  | [] => [[]]
  | c :: rest =>
    let r := splitOnDot rest
    if c == '.' then [] :: r
    else match r with
      | [] => [[c]]
      | h :: t => (c :: h) :: t

/-- Model of `parts.join('.')`. -/
def joinDots : List (List Char) → List Char
  | [] => []
  | [x] => x
  | x :: y :: t => x ++ '.' :: joinDots (y :: t)

/-! ## URL parsing (platform `new URL(...)`)

`monitorWebsite` derives the hostname with `new URL(url).hostname`, a
platform (WHATWG) function, not repository code.  We embed the fragment of
the WHATWG URL parser that the claims exercise: a URL must start with a
scheme (an ASCII letter followed by letters, digits, `+`, `-`, `.`,
terminated by `:`), otherwise parsing throws.  For the special schemes
(`http`, `https`, `ws`, `wss`, `ftp`) any run of slashes after the colon
is skipped and a non-empty host (up to `:`/`/`/`?`/`#`/`\`) is required —
an empty host throws.  For non-special schemes the hostname is the
authority after `//` if present (possibly empty), else the empty string,
and parsing succeeds.  Hostnames are lowercased as the platform does. -/

/-- Characters allowed in a URL scheme after the first (WHATWG). -/
def isSchemeChar (c : Char) : Bool :=
  c.isAlphanum || c == '+' || c == '-' || c == '.'

/-- Split `scheme:` off the front of a URL string: the maximal run of
scheme characters starting with a letter, which must be followed by `:`.
Returns the scheme and the remainder after the colon, or `none` (parse
throws) when there is no such prefix — in particular for a bare hostname,
which contains no `:` at all. -/
def splitScheme (s : String) : Option (String × String) :=
  match s.toList with
  | [] => none
  | c :: _ =>
    if c.isAlpha then
      let pre := s.toList.takeWhile isSchemeChar
      match s.toList.drop pre.length with
      | ':' :: rest => some (String.mk pre, String.mk rest)
      | _ => none
    else none

/-- The WHATWG special schemes relevant here (we omit `file`, whose host
may be empty; the repository only ever receives web targets). -/
def specialSchemes : List String := ["http", "https", "ws", "wss", "ftp"]

/-- A character that terminates the host portion of an authority. -/
def isHostEnd (c : Char) : Bool :=
  c == ':' || c == '/' || c == '?' || c == '#' || c == '\\'

/-- Hostname extraction of `new URL(s).hostname`: `none` models the
constructor throwing (no report is produced), `some h` the derived
hostname. -/
def parseUrlHostname (s : String) : Option String :=
  match splitScheme s with
  | none => none
  | some (scheme, rest) =>
    if specialSchemes.contains (lowerString scheme) then
      let afterSlashes := rest.toList.dropWhile (fun c => c == '/' || c == '\\')
      let host := afterSlashes.takeWhile (fun c => !isHostEnd c)
      if host.isEmpty then none else some (String.mk (lowerChars host))
    else
      match rest.toList with
      | '/' :: '/' :: r =>
        some (String.mk (lowerChars (r.takeWhile (fun c => !isHostEnd c))))
      | _ => some ""

/-! ## Probe environments -/

/-- One MX answer record (`dns.resolveMx` yields objects with an
`exchange` field, of which the code keeps only `exchange`). -/
structure MxRecord where
  exchange : String
  priority : Nat
deriving Repr

/-- Settled outcomes of the four DNS lookups passed to
`Promise.allSettled` (monitor.ts lines 87-92).  `Except.ok` models a
fulfilled promise, `Except.error` a rejected one; `allSettled` itself
never rejects. -/
structure DnsEnv where
  a : Except String (List String)
  mx : Except String (List MxRecord)
  txt : Except String (List (List String))
  ns : Except String (List String)
deriving Repr

/-- The issuer object of `socket.getPeerCertificate()`, of which the code
reads `O` and `CN` (fields may be absent). -/
structure TlsIssuer where
  o : Option String
  cn : Option String
deriving Repr

/-- The subject object of the peer certificate; the code reads `CN`. -/
structure TlsSubject where
  cn : Option String
deriving Repr

/-- A peer certificate as delivered by a completed handshake.
`valid_from`/`valid_to` hold the result of `new Date(...)` on the
certificate's date strings as an epoch-millisecond value, `none` when the
string does not parse (an invalid `Date`, whose `toISOString()` throws). -/
structure TlsCert where
  issuer : Option TlsIssuer
  subject : Option TlsSubject
  valid_from : Option Int
  valid_to : Option Int
deriving Repr

/-- One entry of the RDAP response's `events` array: the code reads
`eventAction` (checking it is a string) and `eventDate` (checking
truthiness before parsing). -/
structure RdapEvent where
  eventAction : Option String
  eventDate : Option String
deriving Repr

/-- The parsed RDAP JSON body, to the extent the code inspects it:
`events` is `some` exactly when `Array.isArray(data?.events)` holds. -/
structure RdapData where
  events : Option (List RdapEvent)
deriving Repr

/-- The settled RDAP `fetch` response: `ok`, `status`, and the outcome of
`res.json()` (which may itself reject on malformed JSON). -/
structure RdapResp where
  ok : Bool
  status : Nat
  json : Except String RdapData
deriving Repr

/-- The complete environment of one `monitorWebsite` invocation: one field
per platform/network effect, in program order.  `parseDate` is the
platform `new Date(string).getTime()` oracle (`none` = `NaN`); `now` is
`Date.now()`; elapsed times are the rounded `performance.now()`
differences measured at each site. -/
structure Env where
  timestamp : String
  now : Int
  httpFetch : FetchEnv
  httpElapsed : Nat
  dns : DnsEnv
  tls : Except String TlsCert
  pslDomain : Option String
  rdap : Except String RdapResp
  parseDate : String → Option Int
  portFetch : Nat → FetchEnv
  portElapsed : Nat → Nat
  pingFetch : FetchEnv
  pingElapsed : Nat

/-! ## Report slots -/

/-- Slot `result.websiteMonitoring`: success branch sets `status`/`statusCode`,
the catch branch sets `statusCode: null` and an `error` message. -/
structure WebsiteMon where
  status : String
  statusCode : Option Nat
  error : Option String
deriving Repr

/-- Slot `result.responseTime`. -/
structure RespTime where
  value : Option Nat
  unit : String
  status : String
deriving Repr

/-- Record set `dnsResult.records`: each key is present exactly when its lookup
fulfilled. -/
structure DnsRecordSet where
  A : Option (List String)
  MX : Option (List String)
  TXT : Option (List String)
  NS : Option (List String)
deriving Repr

/-- Slot `result.dnsMonitoring`: the `records` key is present only in the
`resolved` shape; the catch branch writes `{ status: 'error' }`. -/
structure DnsMon where
  status : String
  records : Option DnsRecordSet
deriving Repr

/-- Payload `result.sslMonitoring.certificate`. -/
structure SslCertInfo where
  issuer : String
  subject : String
  validFrom : Int
  validTo : Int
  daysUntilExpiry : Int
deriving Repr

/-- Slot `result.sslMonitoring`. -/
structure SslMon where
  status : String
  certificate : Option SslCertInfo
  error : Option String
deriving Repr

/-- Slot `result.domainExpiration`: the success branch carries
`daysUntilExpiry`/`expirationDate` (each possibly `null`) and the raw RDAP
data; the catch branch carries only an error message. -/
structure DomainExp where
  status : String
  daysUntilExpiry : Option Int
  expirationDate : Option Int
  data : Option RdapData
  error : Option String
deriving Repr

/-- One entry of `result.portMonitoring`. -/
inductive PortOutcome where
  | opened (responseTime : Nat) (statusCode : Nat)
  | closedOrFiltered
  | skippedServerless
deriving Repr, DecidableEq

/-- The `status` string of a port entry as serialized by the code. -/
def PortOutcome.statusStr : PortOutcome → String
  | .opened _ _ => "open"
  | .closedOrFiltered => "closed-or-filtered"
  | .skippedServerless => "skipped_serverless"

/-- Slot `result.pingMonitoring`: the success branch has `time`/`unit`, the
catch branch an `error`; both carry `method`. -/
structure PingMon where
  status : String
  time : Option Nat
  unit : Option String
  method : String
  error : Option String
deriving Repr

/-- The aggregate `result` object.  It is created as `{ url, timestamp }`
and the probe slots are assigned one by one, so each slot is modelled as
an `Option` that the function must fill; claim C1 is exactly that every
slot ends up `some` with a well-formed `status`. -/
structure Report where
  url : String
  timestamp : String
  websiteMonitoring : Option WebsiteMon
  responseTime : Option RespTime
  dnsMonitoring : Option DnsMon
  sslMonitoring : Option SslMon
  domainExpiration : Option DomainExp
  portMonitoring : Option (List (Nat × PortOutcome))
  pingMonitoring : Option PingMon
deriving Repr

/-! ## The probes (monitor.ts lines 58-190, block by block) -/

/-- Constant `HTTP_PORTS` (monitor.ts lines 7-11): the only ports probed in the
serverless environment, with the scheme used to reach each. -/
def HTTP_PORTS : List (Nat × String) := [(80, "http"), (443, "https"), (8080, "http")]

/-- A fulfilled promise becomes `some`, a rejected one `none` — the
per-key conditional assignment after `Promise.allSettled`. -/
def exceptToOption : Except String α → Option α
  | .ok v => some v
  | .error _ => none

/-- The test `/expire|expiration/i.test(s)`: the string contains `expire`
or `expiration` case-insensitively. -/
def matchesExpirePattern (s : String) : Bool :=
  containsChars "expire".toList (lowerChars s.toList) ||
    containsChars "expiration".toList (lowerChars s.toList)

/-- Return value of `rdapDomainInfo`. -/
structure RdapInfo where
  raw : RdapData
  expirationDate : Option Int
  daysUntilExpiry : Option Int
deriving Repr

/-- Model of `data.events.find(e => typeof e?.eventAction === 'string' &&
/expire|expiration/i.test(e.eventAction))`. -/
def findExpireEvent (evs : List RdapEvent) : Option RdapEvent :=
  evs.find? (fun e => match e.eventAction with
    | some s => matchesExpirePattern s
    | none => false)

/-- The expiration timestamp extracted from an RDAP body (monitor.ts
lines 40-49): scan `data.events` (when it is an array) for the first
expiry-like event; its truthy `eventDate`, when it parses to a valid
date, is the expiration — in every other case there is none. -/
def eventExpiration (env : Env) (data : RdapData) : Option Int :=
  match data.events with
  | none => none
  | some evs =>
    match findExpireEvent evs with
    | none => none
    | some exp =>
      match exp.eventDate with
      | none => none
      | some ds => if ds.isEmpty then none else env.parseDate ds

/-- Embedding of `rdapDomainInfo` (monitor.ts lines 32-56): fetch the RDAP
record (rejection propagates), throw `RDAP failed with <status>` on a
non-OK response, parse the JSON (rejection propagates), then scan
`data.events` (when it is an array) for the first event whose
`eventAction` is a string matching the expire pattern; if that event has a
truthy `eventDate` that parses to a valid date it becomes the expiration,
else the expiration stays `null`.  `daysUntilExpiry` is the rounded
whole-day difference from `Date.now()` when an expiration was found, else
`null`.  The domain argument only selects the URL fetched and cannot
change the settled outcome recorded in the environment. -/
def rdapDomainInfo (env : Env) (_domain : String) : Except String RdapInfo :=
  match env.rdap with
  | .error e => .error e
  | .ok res =>
    if !res.ok then .error ("RDAP failed with " ++ toString res.status)
    else match res.json with
    | .error e => .error e
    | .ok data =>
      let expiration := eventExpiration env data
      .ok { raw := data
            expirationDate := expiration
            daysUntilExpiry := expiration.map (fun t => jsRoundDays (t - env.now)) }

/-- Website Monitoring + Response Time block (monitor.ts lines 65-82):
one `safeHeadOrGet` with an 8s timeout; on success `status` follows
`resp.ok` and the elapsed time is classified `good` below 500 ms; the
catch branch records `offline`/`error` with the message. -/
def websiteProbe (env : Env) : WebsiteMon × RespTime :=
  match safeHeadOrGet env.httpFetch websiteTimeoutMs with
  | .ok resp =>
    ({ status := if resp.ok then "online" else "offline"
       statusCode := some resp.status
       error := none },
     { value := some env.httpElapsed
       unit := "ms"
       status := if env.httpElapsed < 500 then "good" else "slow" })
  | .error e =>
    ({ status := "offline", statusCode := none, error := some e },
     { value := none, unit := "ms", status := "error" })

/-- DNS Monitoring block (monitor.ts lines 84-100): `Promise.allSettled`
over the four lookups, each fulfilled lookup contributing its key.  The
surrounding `try` contains no other throwing operation, so the embedding
is total (claim C10). -/
def dnsProbe (env : Env) : DnsMon :=
  { status := "resolved"
    records := some
      { A := exceptToOption env.dns.a
        MX := (exceptToOption env.dns.mx).map (fun l => l.map (·.exchange))
        TXT := (exceptToOption env.dns.txt).map (fun l => l.flatten)
        NS := exceptToOption env.dns.ns } }

/-- SSL Monitoring block (monitor.ts lines 102-143): a 6s-bounded TLS
handshake; on completion the certificate's validity window is parsed with
`new Date` and `daysUntilExpiry` is the rounded whole-day difference of
`validTo` from now, `status` being `valid` exactly when it is positive.
When either date string fails to parse, `toISOString()` throws a
`RangeError('Invalid time value')` inside the `try`, landing in the error
branch. -/
def sslProbe (env : Env) (hostname : String) : SslMon :=
  match env.tls with
  | .error e => { status := "error", certificate := none, error := some e }
  | .ok cert =>
    match cert.valid_from, cert.valid_to with
    | some f, some t =>
      let days := jsRoundDays (t - env.now)
      { status := if days > 0 then "valid" else "expired"
        certificate := some
          { issuer := ((cert.issuer.bind (·.o)).orElse
              (fun _ => cert.issuer.bind (·.cn))).getD "Unknown"
            subject := (cert.subject.bind (·.cn)).getD hostname
            validFrom := f
            validTo := t
            daysUntilExpiry := days }
        error := none }
    | _, _ => { status := "error", certificate := none, error := some "Invalid time value" }

/-- Model of `hostname.split('.').slice(-2).join('.')` — the fallback registrable
domain when public-suffix parsing yields nothing. -/
def lastTwoLabels (hostname : String) : String :=
  let parts := splitOnDot hostname.toList
  String.mk (joinDots (parts.drop (parts.length - 2)))

/-- Domain Expiration block (monitor.ts lines 145-158): registrable domain
via `psl.parse` (an oracle: `psl.parse` on a string returns, never
throws) with the last-two-labels fallback, then `rdapDomainInfo`; success
carries the day count (possibly `null`), the catch branch only the
message. -/
def domainProbe (env : Env) (hostname : String) : DomainExp :=
  let domainName := env.pslDomain.getD (lastTwoLabels hostname)
  match rdapDomainInfo env domainName with
  | .ok rdap =>
    { status := "success"
      daysUntilExpiry := rdap.daysUntilExpiry
      expirationDate := rdap.expirationDate
      data := some rdap.raw
      error := none }
  | .error e =>
    { status := "error", daysUntilExpiry := none, expirationDate := none
      data := none, error := some e }

/-- The URL probed for one entry of `HTTP_PORTS` (monitor.ts line 163):
the port is written out unless it is the scheme's default. -/
def portTarget (scheme : String) (hostname : String) (port : Nat) : String :=
  scheme ++ "://" ++ hostname ++
    (if (scheme == "http" && port != 80) || (scheme == "https" && port != 443)
     then ":" ++ toString port else "") ++ "/"

/-- The restricted ports enumerated on monitor.ts line 174. -/
def RESTRICTED_PORTS : List Nat := [21, 22, 23, 25, 53, 110, 143, 993, 995, 3306, 5432]

/-- Ports marked `skipped_serverless` (monitor.ts line 174): the
restricted list minus any member of `HTTP_PORTS` (in fact the whole
list, as the two sets are disjoint). -/
def skippedPorts : List Nat :=
  RESTRICTED_PORTS.filter (fun p => !(HTTP_PORTS.any (fun h => h.1 == p)))

/-- Port Monitoring block (monitor.ts lines 160-177): each HTTP port is
probed with `safeHeadOrGet` under a 5s timeout — success records `open`
with elapsed time and status code, failure `closed-or-filtered` — and the
restricted ports are then marked `skipped_serverless`.  The entries are
keyed by distinct port numbers, so the insertion order of the concurrent
branch does not affect lookups. -/
def portProbe (env : Env) : List (Nat × PortOutcome) :=
  (HTTP_PORTS.map (fun pq =>
    (pq.1,
      match safeHeadOrGet (env.portFetch pq.1) portTimeoutMs with
      | .ok resp => PortOutcome.opened (env.portElapsed pq.1) resp.status
      | .error _ => PortOutcome.closedOrFiltered)))
  ++ skippedPorts.map (fun p => (p, PortOutcome.skippedServerless))

/-- Lookup of `result.portMonitoring[p]`. -/
def portLookup (m : List (Nat × PortOutcome)) (p : Nat) : Option PortOutcome :=
  (m.find? (fun e => e.1 == p)).map (fun e => e.2)

/-- Ping Monitoring block (monitor.ts lines 179-187): a fresh
`safeHeadOrGet` against the same URL with a 6s timeout, tagged
`method: 'http'` in both branches. -/
def pingProbe (env : Env) : PingMon :=
  match safeHeadOrGet env.pingFetch pingTimeoutMs with
  | .ok _ =>
    { status := "reachable", time := some env.pingElapsed, unit := some "ms"
      method := "http", error := none }
  | .error e =>
    { status := "unreachable", time := none, unit := none
      method := "http", error := some e }

/-- Embedding of `monitorWebsite` (monitor.ts lines 58-190): trim the
input, derive the hostname with `new URL` (a thrown parse error aborts
before any probe), then run the six probe blocks in program order, each
assigning its slot of the initially slot-less `result`. -/
def monitorWebsite (inputUrl : String) (env : Env) : Except String Report :=
  let url := trimString inputUrl
  match parseUrlHostname url with
  | none => .error "Invalid URL"
  | some hostname =>
    let r0 : Report :=
      { url := url, timestamp := env.timestamp
        websiteMonitoring := none, responseTime := none, dnsMonitoring := none
        sslMonitoring := none, domainExpiration := none, portMonitoring := none
        pingMonitoring := none }
    let wr := websiteProbe env
    let r1 := { r0 with websiteMonitoring := some wr.1, responseTime := some wr.2 }
    let r2 := { r1 with dnsMonitoring := some (dnsProbe env) }
    let r3 := { r2 with sslMonitoring := some (sslProbe env hostname) }
    let r4 := { r3 with domainExpiration := some (domainProbe env hostname) }
    let r5 := { r4 with portMonitoring := some (portProbe env) }
    .ok { r5 with pingMonitoring := some (pingProbe env) }

/-! ## Duration model (claim C3)

`monitorWebsite` awaits its probe phases one after the other: the
website fetch (line 68), `Promise.allSettled` of the DNS lookups (line
87), the TLS handshake promise (line 104), the RDAP lookup (line 149),
`Promise.all` over the port checks (line 162), and the ping fetch
(line 182).  Sequential awaits add their durations; `Promise.all`
completes when its slowest branch does.  The model below assigns each
phase the wall-clock duration of its awaited operation and derives the
total for one invocation. -/

/-- Wall-clock duration of each awaited phase, in milliseconds. -/
structure Durations where
  httpTime : Nat
  dnsTime : Nat
  tlsTime : Nat
  rdapTime : Nat
  portTime : Nat → Nat
  pingTime : Nat

/-- Total wall-clock time of one `monitorWebsite` invocation: the six
phases execute sequentially (each is awaited before the next begins), the
port phase alone being an internally concurrent `Promise.all` bounded by
its slowest branch. -/
def monitorElapsed (d : Durations) : Nat :=
  d.httpTime + d.dnsTime + d.tlsTime + d.rdapTime +
    (HTTP_PORTS.map (fun pq => d.portTime pq.1)).foldr max 0 + d.pingTime

/-- The maximum of the explicit per-probe timeouts (the DNS and RDAP
phases carry no explicit timeout in the code). -/
def maxProbeTimeoutMs : Nat :=
  max websiteTimeoutMs (max tlsTimeoutMs (max portTimeoutMs pingTimeoutMs))

/-! ## Concrete environments

Fully explicit environments used to evaluate the theorems on concrete
inputs: a healthy target (`env0`) and the same target with the website
fetch failing (`envFail`). -/

/-- A settled `200 OK` response. -/
def respOK : HttpResp := { ok := true, status := 200 }

/-- A fetch environment whose HEAD request succeeds. -/
def fetchOK : FetchEnv := { head := .ok respOK, get := .ok respOK }

/-- A fetch environment whose requests reject. -/
def fetchDown : FetchEnv := { head := .error "fetch failed", get := .error "fetch failed" }

/-- A certificate valid from the epoch until exactly 10 days after
`env0.now` (864000000 ms). -/
def cert0 : TlsCert :=
  { issuer := some { o := some "DigiCert Inc", cn := none }
    subject := some { cn := some "example.com" }
    valid_from := some 0
    valid_to := some 864000000 }

/-- DNS outcomes with the MX lookup failing and the rest succeeding. -/
def dns0 : DnsEnv :=
  { a := .ok ["93.184.216.34"]
    mx := .error "queryMx ENODATA"
    txt := .ok [["v=spf1 -all"]]
    ns := .ok ["a.iana-servers.net"] }

/-- An RDAP event that is not an expiry event. -/
def rdapEvent0 : RdapEvent :=
  { eventAction := some "registration", eventDate := some "1995-08-14T04:00:00Z" }

/-- An RDAP body whose event list has no expiry-like event. -/
def rdapData0 : RdapData := { events := some [rdapEvent0] }

/-- An OK RDAP response carrying `rdapData0`. -/
def rdap0 : RdapResp := { ok := true, status := 200, json := .ok rdapData0 }

/-- A healthy environment for `http://example.com`. -/
def env0 : Env :=
  { timestamp := "2026-01-01T00:00:00.000Z"
    now := 0
    httpFetch := fetchOK
    httpElapsed := 100
    dns := dns0
    tls := .ok cert0
    pslDomain := some "example.com"
    rdap := .ok rdap0
    parseDate := fun _ => none
    portFetch := fun _ => fetchOK
    portElapsed := fun _ => 50
    pingFetch := fetchOK
    pingElapsed := 200 }

/-- Environment `env0` with the website fetch rejecting (simulated timeout). -/
def envFail : Env := { env0 with httpFetch := fetchDown }

/-- The all-slots-empty report (placeholder for the throwing case of
`reportOf`; never the value of a successful run). -/
def emptyReport : Report :=
  { url := "", timestamp := "", websiteMonitoring := none, responseTime := none
    dnsMonitoring := none, sslMonitoring := none, domainExpiration := none
    portMonitoring := none, pingMonitoring := none }

/-- The report of a run known to succeed (used to evaluate theorems on
concrete inputs). -/
def reportOf (inputUrl : String) (env : Env) : Report :=
  match monitorWebsite inputUrl env with
  | .ok r => r
  | .error _ => emptyReport

/-- The report for `http://example.com` under `env0`. -/
def report0 : Report := reportOf "http://example.com" env0

/-- The report for `http://example.com` under `envFail`. -/
def reportFail : Report := reportOf "http://example.com" envFail

/-- The DNS slot of the healthy run. -/
def dnsMon0 : DnsMon := dnsProbe env0

/-- The TLS slot of the healthy run. -/
def sslMon0 : SslMon := sslProbe env0 "example.com"

/-- The domain-expiry slot of the healthy run. -/
def domainExp0 : DomainExp := domainProbe env0 "example.com"

/-- The port map of the healthy run. -/
def portMon0 : List (Nat × PortOutcome) := portProbe env0

/-- A duration assignment in which every phase stays within its own
timeout: the website fetch takes its full 8 s, the TLS handshake its full
6 s, the ping fetch its full 6 s, and the DNS, RDAP and port phases are
instantaneous. -/
def dDelay : Durations :=
  { httpTime := 8000, dnsTime := 0, tlsTime := 6000, rdapTime := 0
    portTime := fun _ => 0, pingTime := 6000 }

end MonitorApi
namespace MonitorApi

/-- On a parseable target, the run reaches the end of the function and the
report is the record assembled slot by slot from the probe blocks. -/
theorem monitorWebsite_ok (inputUrl : String) (env : Env) (hostname : String)
    (hp : parseUrlHostname (trimString inputUrl) = some hostname) :
    monitorWebsite inputUrl env = .ok
      { url := trimString inputUrl
        timestamp := env.timestamp
        websiteMonitoring := some (websiteProbe env).1
        responseTime := some (websiteProbe env).2
        dnsMonitoring := some (dnsProbe env)
        sslMonitoring := some (sslProbe env hostname)
        domainExpiration := some (domainProbe env hostname)
        portMonitoring := some (portProbe env)
        pingMonitoring := some (pingProbe env) } := by
  simp only [monitorWebsite, hp]

/-- On an unparseable target, `new URL` throws before any probe runs. -/
theorem monitorWebsite_error (inputUrl : String) (env : Env)
    (hp : parseUrlHostname (trimString inputUrl) = none) :
    monitorWebsite inputUrl env = .error "Invalid URL" := by
  simp only [monitorWebsite, hp]

/-- Every entry of the port map carries one of the three port statuses. -/
theorem portProbe_statuses (env : Env) :
    ∀ e ∈ portProbe env, e.2.statusStr = "open" ∨
      e.2.statusStr = "closed-or-filtered" ∨ e.2.statusStr = "skipped_serverless" := by
  intro e he
  rw [portProbe, List.mem_append] at he
  rcases he with h1 | h2
  · rcases List.mem_map.1 h1 with ⟨pq, _, rfl⟩
    cases safeHeadOrGet (env.portFetch pq.1) portTimeoutMs <;>
      simp [PortOutcome.statusStr]
  · rcases List.mem_map.1 h2 with ⟨p, _, rfl⟩
    simp [PortOutcome.statusStr]

end MonitorApi
namespace MonitorApi

/-- Claim C1 (invariants): for every valid target string the report carries
the full fixed key set — `url`, `timestamp` and all seven probe slots —
and every probe slot is populated with a payload whose `status` field is
one of that probe's success or error statuses, regardless of which probes
fail. -/
theorem C1_report_shape (inputUrl : String) (env : Env) (r : Report)
    (h : monitorWebsite inputUrl env = .ok r) :
    r.url = trimString inputUrl ∧ r.timestamp = env.timestamp ∧
    (∃ wm, r.websiteMonitoring = some wm ∧
      (wm.status = "online" ∨ wm.status = "offline")) ∧
    (∃ rt, r.responseTime = some rt ∧
      (rt.status = "good" ∨ rt.status = "slow" ∨ rt.status = "error")) ∧
    (∃ dm, r.dnsMonitoring = some dm ∧
      (dm.status = "resolved" ∨ dm.status = "error")) ∧
    (∃ sm, r.sslMonitoring = some sm ∧
      (sm.status = "valid" ∨ sm.status = "expired" ∨ sm.status = "error")) ∧
    (∃ de, r.domainExpiration = some de ∧
      (de.status = "success" ∨ de.status = "error")) ∧
    (∃ pm, r.portMonitoring = some pm ∧ ∀ e ∈ pm,
      e.2.statusStr = "open" ∨ e.2.statusStr = "closed-or-filtered" ∨
        e.2.statusStr = "skipped_serverless") ∧
    (∃ pg, r.pingMonitoring = some pg ∧
      (pg.status = "reachable" ∨ pg.status = "unreachable")) := by
  cases hp : parseUrlHostname (trimString inputUrl) with
  | none => rw [monitorWebsite_error _ _ hp] at h; exact absurd h (by simp)
  | some hostname =>
    rw [monitorWebsite_ok _ env _ hp] at h
    injection h with h
    subst h
    refine ⟨rfl, rfl, ⟨(websiteProbe env).1, rfl, ?_⟩, ⟨(websiteProbe env).2, rfl, ?_⟩,
      ⟨dnsProbe env, rfl, Or.inl rfl⟩, ⟨sslProbe env hostname, rfl, ?_⟩,
      ⟨domainProbe env hostname, rfl, ?_⟩,
      ⟨portProbe env, rfl, portProbe_statuses env⟩,
      ⟨pingProbe env, rfl, ?_⟩⟩
    · rcases hsf : safeHeadOrGet env.httpFetch websiteTimeoutMs with e | resp
      · simp [websiteProbe, hsf]
      · by_cases hok : resp.ok <;> simp [websiteProbe, hsf, hok]
    · rcases hsf : safeHeadOrGet env.httpFetch websiteTimeoutMs with e | resp
      · simp [websiteProbe, hsf]
      · by_cases hlt : env.httpElapsed < 500 <;> simp [websiteProbe, hsf, hlt]
    · rcases htls : env.tls with e | cert
      · simp [sslProbe, htls]
      · rcases hf : cert.valid_from with _ | f <;> rcases ht : cert.valid_to with _ | t <;>
          simp [sslProbe, htls, hf, ht]
        split <;> [exact Or.inl (by omega); exact Or.inr (by omega)]
    · rcases hr : rdapDomainInfo env (env.pslDomain.getD (lastTwoLabels hostname)) with e | info <;>
        simp [domainProbe, hr]
    · rcases hping : safeHeadOrGet env.pingFetch pingTimeoutMs with e | resp <;>
        simp [pingProbe, hping]

/-- Concrete run of C1: the healthy environment produces a full report. -/
theorem C1_report_shape_witness :
    monitorWebsite "http://example.com" env0 = .ok report0 ∧
    report0.timestamp = env0.timestamp :=
  ⟨rfl, (C1_report_shape "http://example.com" env0 report0 rfl).2.1⟩

end MonitorApi
namespace MonitorApi

/-- Claim C2 (error_handling): every probe-level error is caught at that
probe's boundary.  When the website fetch fails, `websiteMonitoring`
records `offline` with the message and `responseTime` records `error`;
and the DNS, TLS, domain, port and ping slots are computed independently
of the website fetch — replacing its outcome (and elapsed time) by
anything else leaves all five of them unchanged.  Both runs still return
full reports (`.ok`), so no probe exception escapes `monitorWebsite`. -/
theorem C2_failure_isolation (inputUrl : String) (env : Env) (f : FetchEnv)
    (t : Nat) (msg : String) (r r' : Report)
    (hfail : safeHeadOrGet env.httpFetch websiteTimeoutMs = .error msg)
    (h : monitorWebsite inputUrl env = .ok r)
    (h' : monitorWebsite inputUrl { env with httpFetch := f, httpElapsed := t } = .ok r') :
    r.websiteMonitoring = some { status := "offline", statusCode := none, error := some msg } ∧
    r.responseTime = some { value := none, unit := "ms", status := "error" } ∧
    r'.dnsMonitoring = r.dnsMonitoring ∧
    r'.sslMonitoring = r.sslMonitoring ∧
    r'.domainExpiration = r.domainExpiration ∧
    r'.portMonitoring = r.portMonitoring ∧
    r'.pingMonitoring = r.pingMonitoring := by
  cases hp : parseUrlHostname (trimString inputUrl) with
  | none => rw [monitorWebsite_error _ _ hp] at h; exact absurd h (by simp)
  | some hostname =>
    rw [monitorWebsite_ok _ env _ hp] at h
    rw [monitorWebsite_ok _ { env with httpFetch := f, httpElapsed := t } _ hp] at h'
    injection h with h
    injection h' with h'
    subst h
    subst h'
    exact ⟨by simp [websiteProbe, hfail], by simp [websiteProbe, hfail],
      rfl, rfl, rfl, rfl, rfl⟩

/-- Concrete run of C2: with the website fetch down, the site is reported
offline yet the DNS slot matches the healthy run's. -/
theorem C2_failure_isolation_witness :
    safeHeadOrGet envFail.httpFetch websiteTimeoutMs = .error "fetch failed" ∧
    reportFail.websiteMonitoring =
      some { status := "offline", statusCode := none, error := some "fetch failed" } ∧
    report0.dnsMonitoring = reportFail.dnsMonitoring := by
  have h := C2_failure_isolation "http://example.com" envFail fetchOK 100
    "fetch failed" reportFail report0 rfl rfl rfl
  exact ⟨rfl, h.1, h.2.2.1⟩

end MonitorApi
namespace MonitorApi

/-- Claim C3 counterexample: the claim "total wall-clock time of one
`monitorWebsite` invocation is bounded by the maximum of the individual
probe timeouts" fails.  In the duration assignment `dDelay`, every phase
stays within its own timeout (the website fetch takes its full 8 s, the
TLS handshake 6 s, the ping fetch 6 s, everything else is instantaneous),
yet the invocation takes 20 s — the probes are awaited sequentially, so
their durations add up instead of overlapping. -/
theorem C3_counterexample :
    dDelay.httpTime ≤ websiteTimeoutMs ∧ dDelay.tlsTime ≤ tlsTimeoutMs ∧
    dDelay.pingTime ≤ pingTimeoutMs ∧ dDelay.portTime 80 ≤ portTimeoutMs ∧
    dDelay.portTime 443 ≤ portTimeoutMs ∧ dDelay.portTime 8080 ≤ portTimeoutMs ∧
    dDelay.dnsTime = 0 ∧ dDelay.rdapTime = 0 ∧
    monitorElapsed dDelay = 20000 ∧
    ¬ monitorElapsed dDelay ≤ maxProbeTimeoutMs := by decide

/-- Claim C3 amended: the probe phases of `monitorWebsite` execute
sequentially (each one is awaited before the next starts); only the three
port checks inside the port phase run concurrently.  Hence the total
wall-clock time is at least the sum of the five sequential probe phases
plus the slowest port check, and delaying the ping probe by `k` delays
completion of the whole invocation by exactly `k`. -/
theorem C3_sequential_probes (d : Durations) (k : Nat) :
    monitorElapsed { d with pingTime := d.pingTime + k } = monitorElapsed d + k ∧
    d.httpTime + d.dnsTime + d.tlsTime + d.rdapTime + d.pingTime +
      (HTTP_PORTS.map (fun pq => d.portTime pq.1)).foldr max 0 ≤ monitorElapsed d := by
  unfold monitorElapsed
  dsimp only
  constructor
  · omega
  · omega

end MonitorApi
namespace MonitorApi

/-- Claim C4 counterexample: a bare hostname is not accepted.  `new
URL('example.com')` throws (the input has no scheme), so `monitorWebsite`
fails with a top-level error instead of producing a report, contradicting
"for every input that is an absolute URL or a bare hostname,
monitorWebsite produces a Report". -/
theorem C4_counterexample :
    monitorWebsite "example.com" env0 = .error "Invalid URL" := rfl

/-- Claim C4 amended: `monitorWebsite` produces a report exactly when the
trimmed input parses as a URL (a scheme, with a non-empty host for the
special web schemes); it fails with a top-level error — before any probe
runs, and only then — exactly when URL parsing fails, which in particular
is the case for every bare hostname, since a bare hostname contains no
scheme. -/
theorem C4_report_iff_url_parses (inputUrl : String) (env : Env) :
    ((∃ r, monitorWebsite inputUrl env = .ok r) ↔
      (parseUrlHostname (trimString inputUrl)).isSome) ∧
    (parseUrlHostname (trimString inputUrl) = none →
      monitorWebsite inputUrl env = .error "Invalid URL") := by
  cases hp : parseUrlHostname (trimString inputUrl) with
  | none =>
    refine ⟨⟨fun ⟨r, hr⟩ => ?_, by simp⟩, fun _ => monitorWebsite_error _ _ hp⟩
    rw [monitorWebsite_error _ _ hp] at hr
    exact absurd hr (by simp)
  | some hostname =>
    exact ⟨⟨fun _ => by simp, fun _ => ⟨_, monitorWebsite_ok _ env _ hp⟩⟩,
      fun hc => absurd hc (by simp)⟩

end MonitorApi
namespace MonitorApi

/-- Claim C5 counterexample: the ping outcome does not reuse the
HTTP-Reachability probe's timing.  In the healthy run both checks
succeed, the HTTP-Reachability probe measures 100 ms
(`responseTime.value`), yet `pingMonitoring.time` is 200 ms — the ping
slot is produced by a second, independent HTTP request with its own
elapsed time. -/
theorem C5_counterexample :
    monitorWebsite "http://example.com" env0 = .ok report0 ∧
    report0.websiteMonitoring.map (fun wm => wm.status) = some "online" ∧
    report0.pingMonitoring.map (fun pg => pg.status) = some "reachable" ∧
    report0.responseTime.bind (fun rt => rt.value) = some 100 ∧
    report0.pingMonitoring.bind (fun pg => pg.time) = some 200 ∧
    report0.responseTime.bind (fun rt => rt.value) ≠
      report0.pingMonitoring.bind (fun pg => pg.time) :=
  ⟨rfl, rfl, rfl, rfl, rfl, by decide⟩

/-- Claim C5 amended: the Ping-Equivalent outcome is produced by a second,
independent HTTP reachability request against the same URL (same
lightweight request pattern, 6 s timeout): `status = 'reachable'` with
that request's own elapsed time when it succeeds, `'unreachable'` with
the error message when it fails, and `method = 'http'` in every
outcome. -/
theorem C5_ping_probe (inputUrl : String) (env : Env) (r : Report)
    (h : monitorWebsite inputUrl env = .ok r) :
    (∀ resp, safeHeadOrGet env.pingFetch pingTimeoutMs = .ok resp →
      r.pingMonitoring = some
        { status := "reachable", time := some env.pingElapsed,
          unit := some "ms", method := "http", error := none }) ∧
    (∀ e, safeHeadOrGet env.pingFetch pingTimeoutMs = .error e →
      r.pingMonitoring = some
        { status := "unreachable", time := none, unit := none,
          method := "http", error := some e }) ∧
    r.pingMonitoring.map (fun pg => pg.method) = some "http" := by
  cases hp : parseUrlHostname (trimString inputUrl) with
  | none => rw [monitorWebsite_error _ _ hp] at h; exact absurd h (by simp)
  | some hostname =>
    rw [monitorWebsite_ok _ env _ hp] at h
    injection h with h
    subst h
    refine ⟨fun resp hresp => by simp [pingProbe, hresp],
      fun e he => by simp [pingProbe, he], ?_⟩
    rcases hping : safeHeadOrGet env.pingFetch pingTimeoutMs with e | resp <;>
      simp [pingProbe, hping]

/-- Concrete run of C5 (amended): the ping slot of the healthy run is
tagged `method = 'http'`. -/
theorem C5_ping_probe_witness :
    monitorWebsite "http://example.com" env0 = .ok report0 ∧
    report0.pingMonitoring.map (fun pg => pg.method) = some "http" :=
  ⟨rfl, (C5_ping_probe "http://example.com" env0 report0 rfl).2.2⟩

end MonitorApi
namespace MonitorApi

/-- Claim C6 (error_handling): in the DNS probe each of the four lookups
succeeds or fails independently — a fulfilled lookup populates exactly
its own key of `dnsMonitoring.records`, a rejected lookup merely omits
its own key — and the probe's `status` is `'resolved'` whenever the
attempt completes (the `Promise.allSettled` step cannot raise, so every
run that produces a report has a resolved DNS slot; see C10 for the dead
error branch). -/
theorem C6_dns_independence (inputUrl : String) (env : Env) (r : Report) (dm : DnsMon)
    (h : monitorWebsite inputUrl env = .ok r) (hdm : r.dnsMonitoring = some dm) :
    dm.status = "resolved" ∧
    ∃ recs, dm.records = some recs ∧
      (∀ v, env.dns.a = .ok v → recs.A = some v) ∧
      (∀ e, env.dns.a = .error e → recs.A = none) ∧
      (∀ v, env.dns.mx = .ok v → recs.MX = some (v.map (fun m => m.exchange))) ∧
      (∀ e, env.dns.mx = .error e → recs.MX = none) ∧
      (∀ v, env.dns.txt = .ok v → recs.TXT = some v.flatten) ∧
      (∀ e, env.dns.txt = .error e → recs.TXT = none) ∧
      (∀ v, env.dns.ns = .ok v → recs.NS = some v) ∧
      (∀ e, env.dns.ns = .error e → recs.NS = none) := by
  cases hp : parseUrlHostname (trimString inputUrl) with
  | none => rw [monitorWebsite_error _ _ hp] at h; exact absurd h (by simp)
  | some hostname =>
    rw [monitorWebsite_ok _ env _ hp] at h
    injection h with h
    subst h
    injection hdm with hdm
    subst hdm
    refine ⟨rfl, _, rfl, ?_, ?_, ?_, ?_, ?_, ?_, ?_, ?_⟩ <;>
      intro x hx <;> simp [exceptToOption, hx]

/-- Concrete run of C6: under `env0` the MX lookup fails while the A
lookup succeeds, and the slot is still `resolved` with `A` populated. -/
theorem C6_dns_independence_witness :
    monitorWebsite "http://example.com" env0 = .ok report0 ∧
    report0.dnsMonitoring = some dnsMon0 ∧
    dnsMon0.status = "resolved" ∧
    dnsMon0.records.map (fun recs => recs.A) = some (some ["93.184.216.34"]) ∧
    dnsMon0.records.map (fun recs => recs.MX) = some none := by
  have h := C6_dns_independence "http://example.com" env0 report0 dnsMon0 rfl rfl
  obtain ⟨hst, recs, hrecs, hA, _, _, hMX, _⟩ := h
  refine ⟨rfl, rfl, hst, ?_, ?_⟩
  · simp only [hrecs, Option.map]
    rw [hA _ rfl]
  · simp only [hrecs, Option.map]
    rw [hMX _ rfl]

end MonitorApi
namespace MonitorApi

/-- Claim C7 (error_handling): the Domain-Expiry probe reports
`status = 'success'` if and only if the RDAP lookup settles with an OK
response whose body parses; in that case `daysUntilExpiry` is the rounded
whole-day difference of the extracted expiration from now, and it is
`null` — not an error — when no expiry-like event exists or its date does
not parse.  A rejected fetch, a non-OK response, or a JSON parse failure
each yield `status = 'error'` carrying the corresponding message. -/
theorem C7_domain_expiry (inputUrl : String) (env : Env) (r : Report) (de : DomainExp)
    (h : monitorWebsite inputUrl env = .ok r) (hde : r.domainExpiration = some de) :
    (de.status = "success" ↔
      ∃ res d, env.rdap = .ok res ∧ res.ok = true ∧ res.json = .ok d) ∧
    (∀ res d, env.rdap = .ok res → res.ok = true → res.json = .ok d →
      de.daysUntilExpiry = (eventExpiration env d).map (fun t => jsRoundDays (t - env.now)) ∧
      (eventExpiration env d = none → de.daysUntilExpiry = none)) ∧
    (∀ e, env.rdap = .error e → de.status = "error" ∧ de.error = some e) ∧
    (∀ res, env.rdap = .ok res → res.ok = false →
      de.status = "error" ∧ de.error = some ("RDAP failed with " ++ toString res.status)) ∧
    (∀ res e, env.rdap = .ok res → res.ok = true → res.json = .error e →
      de.status = "error" ∧ de.error = some e) := by
  cases hp : parseUrlHostname (trimString inputUrl) with
  | none => rw [monitorWebsite_error _ _ hp] at h; exact absurd h (by simp)
  | some hostname =>
    rw [monitorWebsite_ok _ env _ hp] at h
    injection h with h
    subst h
    injection hde with hde
    subst hde
    rcases henv : env.rdap with e | res
    · refine ⟨?_, ?_, ?_, ?_, ?_⟩ <;>
        simp [domainProbe, rdapDomainInfo, henv]
    · rcases hok : res.ok with _ | _
      · refine ⟨?_, ?_, ?_, ?_, ?_⟩ <;>
          simp [domainProbe, rdapDomainInfo, henv, hok] <;>
          (rintro r1 x rfl h1 _; simp [hok] at h1)
      · rcases hjson : res.json with je | jd
        · refine ⟨?_, ?_, ?_, ?_, ?_⟩ <;>
            simp [domainProbe, rdapDomainInfo, henv, hok, hjson]
          · rintro r1 x rfl _ h2; simp [hjson] at h2
          · rintro r1 x rfl _ h2
            rw [hjson] at h2
            injection h2
        · refine ⟨?_, ?_, ?_, ?_, ?_⟩ <;>
            simp [domainProbe, rdapDomainInfo, henv, hok, hjson]
          · rintro r1 x rfl _ h2
            rw [hjson] at h2
            injection h2 with h2
            subst h2
            exact ⟨rfl, fun hn => hn⟩
          · rintro r1 x rfl _ h2; simp [hjson] at h2

/-- Concrete run of C7: an OK RDAP response with no expiry-like event
yields success with a null day count. -/
theorem C7_domain_expiry_witness :
    monitorWebsite "http://example.com" env0 = .ok report0 ∧
    report0.domainExpiration = some domainExp0 ∧
    domainExp0.status = "success" ∧ domainExp0.daysUntilExpiry = none := by
  have h := C7_domain_expiry "http://example.com" env0 report0 domainExp0 rfl rfl
  refine ⟨rfl, rfl, h.1.mpr ⟨rdap0, rdapData0, rfl, rfl, rfl⟩,
    (h.2.1 rdap0 rdapData0 rfl rfl rfl).2 (by decide)⟩

end MonitorApi
namespace MonitorApi

/-- Claim C8 (functional_correctness): every restricted port
(21, 22, 23, 25, 53, 110, 143, 993, 995, 3306, 5432) is reported
`skipped_serverless` without being attempted, while each HTTP-capable
port of `HTTP_PORTS` (80/http, 443/https, 8080/http) is probed with the
lightweight-request pattern under the 5 s timeout and reported `open`
with its elapsed time (a `Nat`, hence non-negative) and status code on
success, or `closed-or-filtered` on failure. -/
theorem C8_port_monitoring (inputUrl : String) (env : Env) (r : Report)
    (pm : List (Nat × PortOutcome))
    (h : monitorWebsite inputUrl env = .ok r) (hpm : r.portMonitoring = some pm) :
    (∀ p ∈ RESTRICTED_PORTS, portLookup pm p = some PortOutcome.skippedServerless) ∧
    (∀ p scheme, (p, scheme) ∈ HTTP_PORTS →
      (∀ resp, safeHeadOrGet (env.portFetch p) portTimeoutMs = .ok resp →
        portLookup pm p = some (PortOutcome.opened (env.portElapsed p) resp.status)) ∧
      (∀ e, safeHeadOrGet (env.portFetch p) portTimeoutMs = .error e →
        portLookup pm p = some PortOutcome.closedOrFiltered)) := by
  cases hp : parseUrlHostname (trimString inputUrl) with
  | none => rw [monitorWebsite_error _ _ hp] at h; exact absurd h (by simp)
  | some hostname =>
    rw [monitorWebsite_ok _ env _ hp] at h
    injection h with h
    subst h
    injection hpm with hpm
    subst hpm
    constructor
    · intro p hp'
      fin_cases hp' <;>
        simp [portProbe, portLookup, HTTP_PORTS, skippedPorts, RESTRICTED_PORTS, List.find?]
    · intro p scheme hmem
      fin_cases hmem <;> constructor <;> intro x hx <;>
        simp [portProbe, portLookup, HTTP_PORTS, skippedPorts, RESTRICTED_PORTS,
          List.find?, hx]

/-- Concrete run of C8: port 22 is skipped, port 443 is open with its
elapsed time and status code. -/
theorem C8_port_monitoring_witness :
    monitorWebsite "http://example.com" env0 = .ok report0 ∧
    portLookup portMon0 22 = some PortOutcome.skippedServerless ∧
    portLookup portMon0 443 = some (PortOutcome.opened 50 200) := by
  have h := C8_port_monitoring "http://example.com" env0 report0 portMon0 rfl rfl
  exact ⟨rfl, h.1 22 (by decide), (h.2 443 "https" (by decide)).1 respOK rfl⟩

/-- Claim C9 (functional_correctness): on TLS handshake completion with a
certificate whose validity dates parse, `daysUntilExpiry` is the rounded
whole-day difference between `validTo` and the current time, and the
slot's status is `'valid'` exactly when that rounded difference is
positive, `'expired'` otherwise. -/
theorem C9_ssl_expiry (inputUrl : String) (env : Env) (r : Report) (sm : SslMon)
    (cert : TlsCert) (f t : Int)
    (h : monitorWebsite inputUrl env = .ok r) (hsm : r.sslMonitoring = some sm)
    (hc : env.tls = .ok cert) (hf : cert.valid_from = some f)
    (ht : cert.valid_to = some t) :
    sm.certificate.map (fun ci => ci.daysUntilExpiry) = some (jsRoundDays (t - env.now)) ∧
    (sm.status = "valid" ↔ 0 < jsRoundDays (t - env.now)) ∧
    (¬ 0 < jsRoundDays (t - env.now) → sm.status = "expired") := by
  cases hp : parseUrlHostname (trimString inputUrl) with
  | none => rw [monitorWebsite_error _ _ hp] at h; exact absurd h (by simp)
  | some hostname =>
    rw [monitorWebsite_ok _ env _ hp] at h
    injection h with h
    subst h
    injection hsm with hsm
    subst hsm
    by_cases hd : 0 < jsRoundDays (t - env.now)
    · simp [sslProbe, hc, hf, ht, hd]
    · simp [sslProbe, hc, hf, ht, hd]

/-- Concrete run of C9: a certificate expiring exactly 10 days from now
is reported `valid` with `daysUntilExpiry = 10`. -/
theorem C9_ssl_expiry_witness :
    monitorWebsite "http://example.com" env0 = .ok report0 ∧
    sslMon0.certificate.map (fun ci => ci.daysUntilExpiry) = some 10 ∧
    sslMon0.status = "valid" := by
  have h := C9_ssl_expiry "http://example.com" env0 report0 sslMon0 cert0 0 864000000
    rfl rfl rfl rfl rfl
  have h10 : jsRoundDays (864000000 - env0.now) = 10 := by decide
  refine ⟨rfl, ?_, h.2.1.mpr (by rw [h10]; decide)⟩
  rw [h.1, h10]

end MonitorApi
namespace MonitorApi

/-- Claim C10 (safety, implicit): the DNS probe's top-level error branch is
dead code.  The four lookups are combined with `Promise.allSettled`,
which never rejects, and nothing else in the block can throw, so every
run that produces a report carries `dnsMonitoring.status = 'resolved'` —
the `catch` writing `{ status: 'error' }` can never execute. -/
theorem C10_dns_error_branch_dead (inputUrl : String) (env : Env) (r : Report)
    (h : monitorWebsite inputUrl env = .ok r) :
    r.dnsMonitoring.map (fun dm => dm.status) = some "resolved" := by
  cases hp : parseUrlHostname (trimString inputUrl) with
  | none => rw [monitorWebsite_error _ _ hp] at h; exact absurd h (by simp)
  | some hostname =>
    rw [monitorWebsite_ok _ env _ hp] at h
    injection h with h
    subst h
    rfl

/-- Concrete run of C10: even with the website fetch down, the DNS slot
is `resolved`. -/
theorem C10_dns_error_branch_dead_witness :
    monitorWebsite "http://example.com" envFail = .ok reportFail ∧
    reportFail.dnsMonitoring.map (fun dm => dm.status) = some "resolved" :=
  ⟨rfl, C10_dns_error_branch_dead "http://example.com" envFail reportFail rfl⟩

end MonitorApi
